import Mathlib

/-!
A shallow embedding of `src/process.py` (a two-stage batch pipeline:
per-paragraph completion calls persisting JSON "Interpretation Records",
and a document compiler turning the persisted records into one DOCX),
together with theorems settling the specification claims about it.

Conventions of the embedding:
* Python machine-level concerns are absent (all token counts are `Nat`,
  Python has arbitrary-precision ints anyway).
* A JSON result file's content is modelled by `FileContent`: either
  malformed (so `json.load` raises, carrying the decode-error message) or a
  parsed `RecordJson` whose top-level keys may each be absent (`Option`),
  mirroring that `data['key']` raises `KeyError` while `data.get('key', d)`
  defaults.  The inner items of `difficult_words` /
  `detailed_interpretation` are modelled with both sub-keys present, since
  no claim concerns a missing inner key.
* A python-docx document is modelled as the list of its body paragraphs;
  a paragraph records the right-to-left marker set by `set_rtl`, its
  alignment, and its runs (text plus bold flag).  Page geometry and the
  default font, set once per document, do not vary per input and are not
  modelled.
* `sorted(...)` over distinct filenames under the total order on strings
  is modelled by `List.insertionSort (· ≤ ·)`, which agrees with any
  sorting algorithm on a linear order (`List.eq_of_perm_of_sorted`).
* The Anthropic client call `client.messages.create` is an external
  effect; its outcome is an explicit `ApiOutcome` input: either an
  `anthropic.APIError` (transport / HTTP-status failure) or a success
  carrying the usage counters and the response body, the latter either
  JSON-parseable into a record or not.
-/

/-- One item of the `difficult_words` array: `{word, explanation}`. -/
structure WordExpl where
  word : String
  explanation : String
deriving DecidableEq, Repr

/-- One item of the `detailed_interpretation` array: `{quote, explanation}`. -/
structure InterpPart where
  quote : String
  explanation : String
deriving DecidableEq, Repr

/-- The parsed JSON object of one result file.  Each top-level key may be
absent (`none`), since the compiler accesses `letter` with `.get` but the
other keys with `data[...]` which raises `KeyError` when absent. -/
structure RecordJson where
  letter : Option String
  original_text : Option String
  difficult_words : Option (List WordExpl)
  detailed_interpretation : Option (List InterpPart)
deriving DecidableEq, Repr

/-- What `json.load` sees in one result file: either a decode failure
(with the exception's message) or a parsed record. -/
inductive FileContent where
  | malformed (msg : String)
  | record (r : RecordJson)
deriving DecidableEq, Repr

/-- Paragraph alignment: `WD_PARAGRAPH_ALIGNMENT.CENTER`, `.RIGHT`, or the
default left-to-right default alignment of a fresh paragraph. -/
inductive ParaAlign where
  | center
  | right
  | default
deriving DecidableEq, Repr

/-- One run of a paragraph: its text and whether `run.bold = True` was set. -/
structure Run where
  text : String
  bold : Bool
deriving DecidableEq, Repr

/-- One docx paragraph: whether `set_rtl` was applied, its alignment, and
its runs in order. -/
structure Paragraph where
  rtl : Bool
  alignment : ParaAlign
  runs : List Run
deriving DecidableEq, Repr

/-- `doc.add_paragraph()` with no text and no styling: the spacing
paragraph inserted between sections. -/
def spacerParagraph : Paragraph := ⟨false, ParaAlign.default, []⟩

/-- The model identifier constant `MODEL` at the top of `process.py`. -/
def MODEL : String := "claude-3-5-sonnet-20240620"

/-- Per-model usage entry: `{'input_tokens': .., 'output_tokens': ..}`. -/
structure Usage where
  input_tokens : Nat
  output_tokens : Nat
deriving DecidableEq, Repr

/-- Association-list lookup keyed by model name, modelling
`model_usage[m]` / `m in model_usage` on the Python dict. -/
def lookupModel : List (String × Usage) → String → Option Usage
  | [], _ => none
  | (k, v) :: rest, m => if k = m then some v else lookupModel rest m

/-- Association-list update modelling `model_usage[m] = v` on the Python
dict: an existing key keeps its position, a new key is appended. -/
def setModel : List (String × Usage) → String → Usage → List (String × Usage)
  | [], m, v => [(m, v)]
  | (k, w) :: rest, m, v =>
    if k = m then (m, v) :: rest else (k, w) :: setModel rest m v

/-- Lines 92–95 of `process.py`: ensure `MODEL` has an entry, then add the
per-call token counts to it. -/
def updateModelUsage (mu : List (String × Usage)) (i o : Nat) :
    List (String × Usage) :=
  let mu1 := if (lookupModel mu MODEL).isNone then setModel mu MODEL ⟨0, 0⟩ else mu
  let cur := (lookupModel mu1 MODEL).getD ⟨0, 0⟩
  setModel mu1 MODEL ⟨cur.input_tokens + i, cur.output_tokens + o⟩

/-- The process-wide mutable state of `process.py`: the two token totals,
the per-model usage dict, and the append-only error log. -/
structure UsageState where
  total_input_tokens : Nat
  total_output_tokens : Nat
  model_usage : List (String × Usage)
  errors : List String
deriving DecidableEq, Repr

/-- The state at process start (lines 51–54). -/
def initState : UsageState := ⟨0, 0, [], []⟩

/-- The response body text of a successful `client.messages.create` call,
as seen by `json.loads(response.content[0].text)`: either it parses into a
record or the parse raises (with the decode-error message). -/
inductive JsonBody where
  | invalid (msg : String)
  | valid (r : RecordJson)
deriving DecidableEq, Repr

/-- Outcome of the external `client.messages.create` call: an
`anthropic.APIError` (transport or HTTP-status failure), or success with
the reported usage counters and the response body. -/
inductive ApiOutcome where
  | apiError (msg : String)
  | success (input_tokens output_tokens : Nat) (body : JsonBody)
deriving DecidableEq, Repr

/-- What `call_claude_api` hands back to its caller: the parsed content
with the usage fields added, `None`, or an uncaught exception propagating
past the call (carrying its message). -/
inductive CallResult where
  | ok (r : RecordJson) (usage : Usage)
  | asNone
  | raised (msg : String)
deriving DecidableEq, Repr

/-- Lines 69–113 of `process.py` (`call_claude_api`): on success the token
totals and the per-model dict are updated, then the body is parsed; a
parse failure raises out of the function (only `anthropic.APIError` is
caught).  A caught `APIError` appends to the error log and returns
`None`. -/
def call_claude_api (st : UsageState) (outcome : ApiOutcome) :
    UsageState × CallResult :=
  match outcome with
  | .apiError msg =>
    ({ st with errors := st.errors ++ ["Error in API call: " ++ msg] },
     CallResult.asNone)
  | .success i o body =>
    let st1 : UsageState :=
      { st with
        total_input_tokens := st.total_input_tokens + i
        total_output_tokens := st.total_output_tokens + o
        model_usage := updateModelUsage st.model_usage i o }
    match body with
    | .invalid msg => (st1, CallResult.raised msg)
    | .valid r => (st1, CallResult.ok r ⟨i, o⟩)

/-- Python's `str.endswith`: a suffix test on the character sequence. -/
def endswith (s p : String) : Bool := p.toList.isSuffixOf s.toList

/-- The text of the single difficult-words paragraph:
`'; '.join([f"{item['word']} – {item['explanation']}" for item in difficult_words])`. -/
def difficultWordsText (dw : List WordExpl) : String :=
  String.intercalate "; " (dw.map (fun item => item.word ++ " – " ++ item.explanation))

/-- The centered bold heading paragraph built from `data.get('letter', '')`. -/
def letterParagraph (letter : Option String) : Paragraph :=
  ⟨true, ParaAlign.center, [⟨letter.getD "", true⟩]⟩

/-- The right-aligned paragraph holding `data['original_text']`. -/
def originalTextParagraph (orig : String) : Paragraph :=
  ⟨true, ParaAlign.right, [⟨orig, false⟩]⟩

/-- The right-aligned difficult-words paragraph (built only when the list
is non-empty). -/
def difficultWordsParagraph (dw : List WordExpl) : Paragraph :=
  ⟨true, ParaAlign.right, [⟨difficultWordsText dw, false⟩]⟩

/-- The right-aligned detailed-interpretation paragraph: per part, a bold
run of the quote followed by a non-bold run `f" - {part['explanation']} "`. -/
def detailedInterpretationParagraph (di : List InterpPart) : Paragraph :=
  ⟨true, ParaAlign.right,
    di.flatMap (fun part =>
      [⟨part.quote, true⟩, ⟨" - " ++ part.explanation ++ " ", false⟩])⟩

/-- Lines 137–182 of `process.py`: the `try` body handling one result
file.  Returns the paragraphs appended to the document before control
leaves the body, and `some msg` when an exception was raised (and caught
by the per-file handler), where `msg` is Python's `str(e)` — for a
`KeyError` that is the quoted key name.  Paragraphs already appended when
the exception is raised remain in the document. -/
def renderFileResult (data : FileContent) : List Paragraph × Option String :=
  match data with
  | .malformed msg => ([], some msg)
  | .record r =>
    let head := [letterParagraph r.letter, spacerParagraph]
    match r.original_text with
    | none => (head, some "'original_text'")
    | some orig =>
      let head2 := head ++ [originalTextParagraph orig, spacerParagraph]
      match r.difficult_words with
      | none => (head2, some "'difficult_words'")
      | some dw =>
        let dwParas :=
          if dw.isEmpty then [] else [difficultWordsParagraph dw, spacerParagraph]
        match r.detailed_interpretation with
        | none => (head2 ++ dwParas, some "'detailed_interpretation'")
        | some di =>
          (head2 ++ dwParas ++ [detailedInterpretationParagraph di, spacerParagraph],
           none)

/-- The per-file error-log entry format of line 180:
`f"Error processing file {filename}: {str(e)}"`. -/
def fileErrorEntries (filename : String) (data : FileContent) : List String :=
  match (renderFileResult data).2 with
  | some e => ["Error processing file " ++ filename ++ ": " ++ e]
  | none => []

/-- One iteration of the `for filename in sorted(os.listdir(results_dir))`
loop: the `.json` filter, then the per-file body with its exception
handler appending to the error log. -/
def compileStep (content : String → FileContent)
    (acc : List Paragraph × List String) (filename : String) :
    List Paragraph × List String :=
  if endswith filename ".json" then
    (acc.1 ++ (renderFileResult (content filename)).1,
     acc.2 ++ fileErrorEntries filename (content filename))
  else acc

/-- Lines 121–185 of `process.py` (`compile_to_docx`): iterate the sorted
directory listing, appending one section per `.json` file to the document
(and error-log entries for failing files).  `listing` is the raw
`os.listdir(results_dir)` order; `content` gives each file's content.
Returns the document's paragraph list and the error-log entries
appended. -/
def compile_to_docx (listing : List String) (content : String → FileContent) :
    List Paragraph × List String :=
  (listing.insertionSort (· ≤ ·)).foldl (compileStep content) ([], [])

/-- The files `compile_to_docx` visits: the sorted listing restricted to
names ending in `.json`, in visit order. -/
def visitedFiles (listing : List String) : List String :=
  (listing.insertionSort (· ≤ ·)).filter (endswith · ".json")

/-- Lines 245–285 of `process.py`: the full-processing loop over
`os.listdir('sources')`.  For each `.txt` file the paragraph is read
(`read_file` raises `FileNotFoundError` when it is absent, aborting the
run — there is no `try` around the loop body) and one completion call is
made.  Returns the user messages sent over the network in order, the
final usage state, and `some msg` when an uncaught exception aborted the
run.  Result-file writing has no observable the claims mention and is not
recorded. -/
def runSourcesLoop (fs : String → Option String) (outcome : String → ApiOutcome) :
    UsageState → List String → List String × UsageState × Option String
  | st, [] => ([], st, none)
  | st, f :: rest =>
    if endswith f ".txt" then
      match fs ("sources/" ++ f) with
      | none => ([], st, some ("FileNotFoundError: sources/" ++ f))
      | some paragraph =>
        let step := call_claude_api st (outcome f)
        let tail := runSourcesLoop fs outcome step.1 rest
        (paragraph :: tail.1, tail.2)
    else runSourcesLoop fs outcome st rest

/-- Lines 194–285 of `process.py`: the full-processing branch of `main`.
`read_file('prompt.txt')` and `read_file('examples.txt')` run first; a
missing file raises `FileNotFoundError` with nothing to catch it, so the
process aborts there, before the sources loop (and hence before any
completion call).  `fs` maps a path to its content when the file exists.
Returns the network-call trace, the final usage state, and `some msg` if
the run aborted with an uncaught exception. -/
def mainFullProcessing (fs : String → Option String)
    (outcome : String → ApiOutcome) (sourcesListing : List String) :
    List String × UsageState × Option String :=
  match fs "prompt.txt" with
  | none => ([], initState, some "FileNotFoundError: prompt.txt")
  | some _prompt =>
    match fs "examples.txt" with
    | none => ([], initState, some "FileNotFoundError: examples.txt")
    | some _examples => runSourcesLoop fs outcome initState sourcesListing

/-- A successful completion call as counted by the spec: the per-call
token counts and the parsed record.  `processCalls` folds
`call_claude_api` over a list of such calls, as the batch driver does
across source files. -/
def processCalls (st : UsageState) : List (Nat × Nat × RecordJson) → UsageState
  | [] => st
  | (i, o, r) :: rest =>
    processCalls (call_claude_api st (ApiOutcome.success i o (JsonBody.valid r))).1 rest

/-- A concrete results directory used to evaluate the theorems on real
inputs: `a.json` is malformed JSON, `c.json` lacks `original_text`, and
every other name maps to a fully well-formed record. -/
def sampleContent : String → FileContent := fun g =>
  if g = "a.json" then
    FileContent.malformed "Expecting value: line 1 column 1 (char 0)"
  else if g = "c.json" then
    FileContent.record ⟨some "ג", none, some [], some []⟩
  else
    FileContent.record ⟨some "ב", some "טקסט", some [], some []⟩

/-! ### Helper lemmas about the embedded definitions -/

theorem lookupModel_setModel_self (mu : List (String × Usage)) (m : String) (v : Usage) :
    lookupModel (setModel mu m v) m = some v := by
  induction mu with
  | nil => simp [setModel, lookupModel]
  | cons kv rest ih =>
    obtain ⟨k, w⟩ := kv
    by_cases hk : k = m
    · simp [setModel, lookupModel, hk]
    · simp [setModel, lookupModel, hk, ih]

theorem updateModelUsage_lookup (mu : List (String × Usage)) (i o : Nat) :
    lookupModel (updateModelUsage mu i o) MODEL =
      some ⟨((lookupModel mu MODEL).getD ⟨0, 0⟩).input_tokens + i,
            ((lookupModel mu MODEL).getD ⟨0, 0⟩).output_tokens + o⟩ := by
  unfold updateModelUsage
  cases h : lookupModel mu MODEL with
  | none => simp [h, lookupModel_setModel_self]
  | some u => simp [h, lookupModel_setModel_self]

theorem compileStep_foldl (content : String → FileContent) (l : List String)
    (acc : List Paragraph × List String) :
    l.foldl (compileStep content) acc =
      (acc.1 ++ (l.filter (endswith · ".json")).flatMap
          (fun f => (renderFileResult (content f)).1),
       acc.2 ++ (l.filter (endswith · ".json")).flatMap
          (fun f => fileErrorEntries f (content f))) := by
  induction l generalizing acc with
  | nil => simp
  | cons f rest ih =>
    by_cases h : endswith f ".json"
    · simp [List.foldl_cons, compileStep, h, ih, List.filter_cons]
    · simp [List.foldl_cons, compileStep, h, ih, List.filter_cons]

theorem compile_paragraphs (listing : List String) (content : String → FileContent) :
    (compile_to_docx listing content).1 =
      (visitedFiles listing).flatMap (fun f => (renderFileResult (content f)).1) := by
  simp [compile_to_docx, visitedFiles, compileStep_foldl]

theorem compile_errlog (listing : List String) (content : String → FileContent) :
    (compile_to_docx listing content).2 =
      (visitedFiles listing).flatMap (fun f => fileErrorEntries f (content f)) := by
  simp [compile_to_docx, visitedFiles, compileStep_foldl]

theorem diPara_runs_length (di : List InterpPart) :
    (detailedInterpretationParagraph di).runs.length = 2 * di.length := by
  unfold detailedInterpretationParagraph
  induction di with
  | nil => rfl
  | cons p rest ih =>
    simp only [List.flatMap_cons, List.length_append, List.length_cons,
      List.length_nil, List.length_flatMap] at *
    omega

/-! ### Claim C1 (corrected) -/

/-- C1, counterexample to the claim as stated: the claim says every
transport, HTTP-status, or JSON-parse failure inside `call_claude_api` is
caught, logged, and turned into a `None` result.  At the concrete input
where the request succeeds but `json.loads` fails, the call instead
raises past its boundary (only `anthropic.APIError` is caught) and
appends nothing to the error log. -/
theorem call_claude_api_json_failure_escapes :
    (call_claude_api initState
        (ApiOutcome.success 3 5
          (JsonBody.invalid "Expecting value: line 1 column 1 (char 0)"))).2 ≠
      CallResult.asNone ∧
    (call_claude_api initState
        (ApiOutcome.success 3 5
          (JsonBody.invalid "Expecting value: line 1 column 1 (char 0)"))).1.errors = [] :=
  ⟨by decide, rfl⟩

/-- C1, amended: a transport or HTTP-status failure (`anthropic.APIError`)
is caught inside `call_claude_api`, a descriptive message is appended to
the error log, and the caller receives `None`; a JSON-parse failure of
the response body, however, is not caught and propagates past the call's
boundary. -/
theorem call_claude_api_error_boundary (st : UsageState) (msg : String)
    (i o : Nat) (pmsg : String) :
    call_claude_api st (ApiOutcome.apiError msg) =
      ({ st with errors := st.errors ++ ["Error in API call: " ++ msg] },
       CallResult.asNone) ∧
    (call_claude_api st (ApiOutcome.success i o (JsonBody.invalid pmsg))).2 =
      CallResult.raised pmsg :=
  ⟨rfl, rfl⟩

/-! ### Claim C9 (confirmed) -/

/-- C9: when a completion call fails with a caught API error, all usage
state is left exactly as it was before the call — the total input-token
counter, the total output-token counter, and the per-model usage map are
unchanged (the usage update is atomic on the error path); the caller
receives `None`. -/
theorem call_claude_api_error_preserves_usage (st : UsageState) (msg : String) :
    (call_claude_api st (ApiOutcome.apiError msg)).1.total_input_tokens =
      st.total_input_tokens ∧
    (call_claude_api st (ApiOutcome.apiError msg)).1.total_output_tokens =
      st.total_output_tokens ∧
    (call_claude_api st (ApiOutcome.apiError msg)).1.model_usage = st.model_usage ∧
    (call_claude_api st (ApiOutcome.apiError msg)).2 = CallResult.asNone :=
  ⟨rfl, rfl, rfl, rfl⟩

/-! ### Claim C2 (corrected) -/

/-- C2, counterexample to the claim as stated: the claim says a persisted
record lacking a `difficult_words` entry still renders validly.  On the
concrete record without that key, `data['difficult_words']` raises
`KeyError`, so the file's section is cut short (only the heading and
original-text paragraphs, 4 of them with spacing, are emitted) and an
error is recorded instead of a valid rendering. -/
theorem render_missing_difficult_words_fails :
    (renderFileResult (FileContent.record
        ⟨some "א", some "שלום", none, some []⟩)).2 = some "'difficult_words'" ∧
    (renderFileResult (FileContent.record
        ⟨some "א", some "שלום", none, some []⟩)).1.length = 4 :=
  ⟨rfl, rfl⟩

/-- C2, amended: a persisted record whose `difficult_words` entry is
present but empty still renders validly (no error, and the field
contributes no paragraph), and a record where `letter` is absent renders
with an empty heading (the centered bold heading paragraph is added with
empty text); a record where the `difficult_words` key is absent, however,
raises `KeyError` and is logged as a per-file error. -/
theorem render_empty_difficult_words_valid (orig : String) (di : List InterpPart)
    (letter : Option String) (odi : Option (List InterpPart)) :
    renderFileResult (FileContent.record ⟨none, some orig, some [], some di⟩) =
      ([⟨true, ParaAlign.center, [⟨"", true⟩]⟩, spacerParagraph,
        originalTextParagraph orig, spacerParagraph,
        detailedInterpretationParagraph di, spacerParagraph], none) ∧
    (renderFileResult (FileContent.record ⟨letter, some orig, none, odi⟩)).2 =
      some "'difficult_words'" :=
  ⟨rfl, rfl⟩

/-! ### Claim C3 (confirmed) -/

/-- C3: a result file with an empty `difficult_words` list produces no
difficult-words paragraph (the section is heading, original text, and
detailed interpretation only, each followed by spacing), while a
non-empty list produces exactly one paragraph containing all
word–explanation pairs joined by `"; "` (provided the original text does
not itself coincide with that joined string, in which case its paragraph
would be structurally identical). -/
theorem render_difficult_words_count (letter : Option String) (orig : String)
    (dw : List WordExpl) (di : List InterpPart) :
    (dw = [] →
      (renderFileResult (FileContent.record ⟨letter, some orig, some dw, some di⟩)).1 =
        [letterParagraph letter, spacerParagraph, originalTextParagraph orig,
         spacerParagraph, detailedInterpretationParagraph di, spacerParagraph]) ∧
    (dw ≠ [] → orig ≠ difficultWordsText dw →
      (renderFileResult (FileContent.record ⟨letter, some orig, some dw, some di⟩)).1.countP
          (fun p => p == difficultWordsParagraph dw) = 1) := by
  constructor
  · rintro rfl
    rfl
  · intro hne horig
    have hempty : dw.isEmpty = false := by
      cases dw with
      | nil => exact absurd rfl hne
      | cons a l => rfl
    have hrender :
        (renderFileResult (FileContent.record ⟨letter, some orig, some dw, some di⟩)).1 =
          [letterParagraph letter, spacerParagraph, originalTextParagraph orig,
           spacerParagraph, difficultWordsParagraph dw, spacerParagraph,
           detailedInterpretationParagraph di, spacerParagraph] := by
      simp [renderFileResult, hempty]
    have hdi : ¬ (detailedInterpretationParagraph di = difficultWordsParagraph dw) := by
      intro h
      have hlen := congrArg (fun p => p.runs.length) h
      simp only [diPara_runs_length, difficultWordsParagraph, List.length_cons,
        List.length_nil] at hlen
      omega
    rw [hrender]
    simp [List.countP_cons, letterParagraph, originalTextParagraph, spacerParagraph,
      difficultWordsParagraph, horig]
    simpa [difficultWordsParagraph] using hdi

/-- C3, witness: the theorem applied at concrete records — one with an
empty `difficult_words` list (no difficult-words paragraph in the
section) and one with a single pair (exactly one such paragraph). -/
theorem render_difficult_words_count_witness :
    (renderFileResult (FileContent.record
        ⟨some "א", some "שלום", some [], some []⟩)).1 =
      [letterParagraph (some "א"), spacerParagraph, originalTextParagraph "שלום",
       spacerParagraph, detailedInterpretationParagraph [], spacerParagraph] ∧
    (renderFileResult (FileContent.record
        ⟨some "א", some "שלום", some [⟨"w", "e"⟩], some []⟩)).1.countP
        (fun p => p == difficultWordsParagraph [⟨"w", "e"⟩]) = 1 :=
  ⟨(render_difficult_words_count (some "א") "שלום" [] []).1 rfl,
   (render_difficult_words_count (some "א") "שלום" [⟨"w", "e"⟩] []).2
     (by decide) (by decide)⟩

theorem sampleListing_visited :
    visitedFiles ["b.json", "a.json", "c.json", "notes.txt"] =
      ["a.json", "b.json", "c.json"] := by
  have hs : List.insertionSort (· ≤ ·) ["b.json", "a.json", "c.json", "notes.txt"] =
      ["a.json", "b.json", "c.json", "notes.txt"] := by
    simp only [List.insertionSort, List.orderedInsert, String.le_iff_toList_le]
    decide
  unfold visitedFiles
  rw [hs]
  decide

/-! ### Claim C4 (confirmed) -/

/-- C4: a result file that is malformed JSON or lacks the
`original_text` key is caught, an error entry for it is appended to the
error log, and the file is skipped; compilation still runs to completion,
with every visited file — including all files after the failing one in
the sorted enumeration — contributing exactly its own section. -/
theorem compile_skips_failing_file (listing : List String)
    (content : String → FileContent) (f : String)
    (hf : f ∈ visitedFiles listing)
    (hbad : (∃ m, content f = FileContent.malformed m) ∨
            (∃ letter dw di, content f = FileContent.record ⟨letter, none, dw, di⟩)) :
    (∃ e, ("Error processing file " ++ f ++ ": " ++ e) ∈
        (compile_to_docx listing content).2) ∧
    (compile_to_docx listing content).1 =
      (visitedFiles listing).flatMap (fun g => (renderFileResult (content g)).1) := by
  refine ⟨?_, compile_paragraphs listing content⟩
  have hsome : ∃ e, (renderFileResult (content f)).2 = some e := by
    rcases hbad with ⟨m, hm⟩ | ⟨letter, dw, di, hm⟩
    · exact ⟨m, by rw [hm]; rfl⟩
    · exact ⟨"'original_text'", by rw [hm]; rfl⟩
  obtain ⟨e, he⟩ := hsome
  refine ⟨e, ?_⟩
  rw [compile_errlog]
  exact List.mem_flatMap.mpr ⟨f, hf, by simp [fileErrorEntries, he]⟩

/-- C4, witness: in the sample directory, `a.json` is malformed, an error
entry for it appears in the log, and every visited file (it is first in
sorted order, so `b.json` and `c.json` come after it) still contributes
its section. -/
theorem compile_skips_failing_file_witness :
    (∃ e, ("Error processing file " ++ "a.json" ++ ": " ++ e) ∈
        (compile_to_docx ["b.json", "a.json", "c.json", "notes.txt"] sampleContent).2) ∧
    (compile_to_docx ["b.json", "a.json", "c.json", "notes.txt"] sampleContent).1 =
      (visitedFiles ["b.json", "a.json", "c.json", "notes.txt"]).flatMap
        (fun g => (renderFileResult (sampleContent g)).1) :=
  compile_skips_failing_file _ _ "a.json"
    (by rw [sampleListing_visited]; decide)
    (Or.inl ⟨"Expecting value: line 1 column 1 (char 0)", rfl⟩)

/-! ### Claim C5 (confirmed) -/

/-- C5: the document compiler visits exactly the result files whose names
end in `.json`, in lexicographic sort order of their filenames, and the
compiled document is the concatenation, in that order, of one formatted
section per visited file. -/
theorem compile_visits_sorted_json (listing : List String)
    (content : String → FileContent) :
    (compile_to_docx listing content).1 =
      (visitedFiles listing).flatMap (fun f => (renderFileResult (content f)).1) ∧
    (visitedFiles listing).Sorted (· ≤ ·) ∧
    (∀ f ∈ visitedFiles listing, endswith f ".json" = true) ∧
    (visitedFiles listing).Perm (listing.filter (endswith · ".json")) := by
  refine ⟨compile_paragraphs listing content, ?_, ?_, ?_⟩
  · exact (List.sorted_insertionSort (· ≤ ·) listing).filter (endswith · ".json")
  · intro f hf
    exact (List.mem_filter.mp hf).2
  · exact (List.perm_insertionSort (· ≤ ·) listing).filter (endswith · ".json")

/-- C5, witness: the theorem applied to the concrete sample listing; the
visited files are `["a.json", "b.json", "c.json"]` in sorted order, and
the membership hypothesis of the all-files conjunct is discharged at
`"a.json"`. -/
theorem compile_visits_sorted_json_witness :
    (visitedFiles ["b.json", "a.json", "c.json", "notes.txt"]).Sorted (· ≤ ·) ∧
    endswith "a.json" ".json" = true := by
  have h := compile_visits_sorted_json ["b.json", "a.json", "c.json", "notes.txt"]
    sampleContent
  refine ⟨h.2.1, h.2.2.1 "a.json" ?_⟩
  rw [sampleListing_visited]
  decide

/-! ### Claim C10 (confirmed) -/

/-- C10: when per-file handling fails partway — here, the `original_text`
key is missing, so the failure hits after the letter heading and its
spacing paragraph were appended — those already-appended paragraphs are
kept: the per-file result is exactly the heading and spacer plus the
caught `KeyError`, and the heading paragraph appears in the compiled
document (no rollback). -/
theorem render_no_rollback (letter : Option String) (dw : Option (List WordExpl))
    (di : Option (List InterpPart)) (listing : List String)
    (content : String → FileContent) (f : String)
    (hf : f ∈ visitedFiles listing)
    (hc : content f = FileContent.record ⟨letter, none, dw, di⟩) :
    renderFileResult (content f) =
      ([letterParagraph letter, spacerParagraph], some "'original_text'") ∧
    letterParagraph letter ∈ (compile_to_docx listing content).1 := by
  have hr : renderFileResult (content f) =
      ([letterParagraph letter, spacerParagraph], some "'original_text'") := by
    rw [hc]; rfl
  refine ⟨hr, ?_⟩
  rw [compile_paragraphs]
  exact List.mem_flatMap.mpr ⟨f, hf, by simp [hr]⟩

/-- C10, witness: in the sample directory, `c.json` lacks
`original_text`; its letter heading paragraph survives into the compiled
document even though the rest of its section is skipped. -/
theorem render_no_rollback_witness :
    renderFileResult (sampleContent "c.json") =
      ([letterParagraph (some "ג"), spacerParagraph], some "'original_text'") ∧
    letterParagraph (some "ג") ∈
      (compile_to_docx ["b.json", "a.json", "c.json", "notes.txt"] sampleContent).1 :=
  render_no_rollback (some "ג") (some []) (some []) _ _ "c.json"
    (by rw [sampleListing_visited]; decide) (by decide)

theorem processCalls_total_input (calls : List (Nat × Nat × RecordJson)) :
    ∀ st : UsageState, (processCalls st calls).total_input_tokens =
      st.total_input_tokens + (calls.map (fun c => c.1)).sum := by
  induction calls with
  | nil => intro st; simp [processCalls]
  | cons c rest ih =>
    intro st
    obtain ⟨i, o, r⟩ := c
    simp only [processCalls, List.map_cons, List.sum_cons]
    rw [ih]
    simp [call_claude_api]
    omega

theorem processCalls_total_output (calls : List (Nat × Nat × RecordJson)) :
    ∀ st : UsageState, (processCalls st calls).total_output_tokens =
      st.total_output_tokens + (calls.map (fun c => c.2.1)).sum := by
  induction calls with
  | nil => intro st; simp [processCalls]
  | cons c rest ih =>
    intro st
    obtain ⟨i, o, r⟩ := c
    simp only [processCalls, List.map_cons, List.sum_cons]
    rw [ih]
    simp [call_claude_api]
    omega

theorem processCalls_lookup (calls : List (Nat × Nat × RecordJson)) :
    ∀ st : UsageState, calls ≠ [] →
      lookupModel (processCalls st calls).model_usage MODEL =
        some ⟨((lookupModel st.model_usage MODEL).getD ⟨0, 0⟩).input_tokens +
                (calls.map (fun c => c.1)).sum,
              ((lookupModel st.model_usage MODEL).getD ⟨0, 0⟩).output_tokens +
                (calls.map (fun c => c.2.1)).sum⟩ := by
  induction calls with
  | nil => intro st h; exact absurd rfl h
  | cons c rest ih =>
    intro st _
    obtain ⟨i, o, r⟩ := c
    have hmu : (call_claude_api st (ApiOutcome.success i o (JsonBody.valid r))).1.model_usage =
        updateModelUsage st.model_usage i o := rfl
    have hlk : lookupModel
        (call_claude_api st (ApiOutcome.success i o (JsonBody.valid r))).1.model_usage MODEL =
        some ⟨((lookupModel st.model_usage MODEL).getD ⟨0, 0⟩).input_tokens + i,
              ((lookupModel st.model_usage MODEL).getD ⟨0, 0⟩).output_tokens + o⟩ := by
      rw [hmu]; exact updateModelUsage_lookup st.model_usage i o
    by_cases hrest : rest = []
    · subst hrest
      simp only [processCalls, List.map_cons, List.map_nil, List.sum_cons, List.sum_nil]
      rw [hlk]
      simp
    · simp only [processCalls, List.map_cons, List.sum_cons]
      rw [ih _ hrest, hlk]
      simp only [Option.getD_some, Option.some.injEq, Usage.mk.injEq]
      omega

/-! ### Claim C6 (confirmed) -/

/-- C6: after any sequence of N successful completion calls starting from
process start, the process-wide total input-token and output-token
counters each equal the sum of the per-call counts returned by the remote
service, and (once at least one call has been made, so the entry exists)
the per-model usage map entry for the active model holds the same sums. -/
theorem usage_totals_after_calls (calls : List (Nat × Nat × RecordJson)) :
    (processCalls initState calls).total_input_tokens =
      (calls.map (fun c => c.1)).sum ∧
    (processCalls initState calls).total_output_tokens =
      (calls.map (fun c => c.2.1)).sum ∧
    (calls ≠ [] →
      lookupModel (processCalls initState calls).model_usage MODEL =
        some ⟨(calls.map (fun c => c.1)).sum, (calls.map (fun c => c.2.1)).sum⟩) := by
  refine ⟨?_, ?_, fun h => ?_⟩
  · simpa [initState] using processCalls_total_input calls initState
  · simpa [initState] using processCalls_total_output calls initState
  · simpa [initState, lookupModel] using processCalls_lookup calls initState h

/-- C6, witness: two successful calls reporting (3, 5) and (2, 7) tokens
leave totals 5/12 and the same sums in the model-usage entry. -/
theorem usage_totals_after_calls_witness :
    (processCalls initState
        [(3, 5, ⟨some "א", some "t", some [], some []⟩),
         (2, 7, ⟨some "ב", some "u", some [], some []⟩)]).total_input_tokens = 5 ∧
    (processCalls initState
        [(3, 5, ⟨some "א", some "t", some [], some []⟩),
         (2, 7, ⟨some "ב", some "u", some [], some []⟩)]).total_output_tokens = 12 ∧
    lookupModel (processCalls initState
        [(3, 5, ⟨some "א", some "t", some [], some []⟩),
         (2, 7, ⟨some "ב", some "u", some [], some []⟩)]).model_usage MODEL =
      some ⟨5, 12⟩ := by
  have h := usage_totals_after_calls
    [(3, 5, ⟨some "א", some "t", some [], some []⟩),
     (2, 7, ⟨some "ב", some "u", some [], some []⟩)]
  exact ⟨by simpa using h.1, by simpa using h.2.1, by simpa using h.2.2 (by simp)⟩

/-! ### Claim C7 (confirmed) -/

/-- C7: in full-processing mode, if `prompt.txt` or `examples.txt` is
missing, the run aborts with an uncaught `FileNotFoundError` before the
sources loop, so no network completion call is ever made (the call trace
is empty). -/
theorem full_processing_aborts_on_missing_inputs (fs : String → Option String)
    (outcome : String → ApiOutcome) (sources : List String)
    (h : fs "prompt.txt" = none ∨ fs "examples.txt" = none) :
    (mainFullProcessing fs outcome sources).1 = [] ∧
    (mainFullProcessing fs outcome sources).2.2.isSome = true := by
  unfold mainFullProcessing
  rcases h with h | h
  · rw [h]; exact ⟨rfl, rfl⟩
  · cases hp : fs "prompt.txt" with
    | none => exact ⟨rfl, rfl⟩
    | some p => rw [h]; exact ⟨rfl, rfl⟩

/-- C7, witness: with an empty filesystem (both static inputs missing)
and one source file, the run makes no completion call and aborts. -/
theorem full_processing_aborts_on_missing_inputs_witness :
    (mainFullProcessing (fun _ => none)
        (fun _ => ApiOutcome.apiError "boom") ["a.txt"]).1 = [] ∧
    (mainFullProcessing (fun _ => none)
        (fun _ => ApiOutcome.apiError "boom") ["a.txt"]).2.2.isSome = true :=
  full_processing_aborts_on_missing_inputs _ _ _ (Or.inl rfl)

/-! ### Claim C8 (confirmed) -/

/-- C8: document compilation is a deterministic function of the
result-file contents: any two directory enumerations of the same files
(permutations of one another, as `os.listdir` order is unspecified)
compile to identical documents — the same paragraphs, in the same order,
with the same error log — because the listing is sorted before use. -/
theorem compile_deterministic (l1 l2 : List String)
    (content : String → FileContent) (hperm : l1.Perm l2) :
    compile_to_docx l1 content = compile_to_docx l2 content := by
  have hsort : List.insertionSort (· ≤ ·) l1 = List.insertionSort (· ≤ ·) l2 :=
    List.eq_of_perm_of_sorted
      (((List.perm_insertionSort (· ≤ ·) l1).trans hperm).trans
        (List.perm_insertionSort (· ≤ ·) l2).symm)
      (List.sorted_insertionSort (· ≤ ·) l1)
      (List.sorted_insertionSort (· ≤ ·) l2)
  unfold compile_to_docx
  rw [hsort]

/-- C8, witness: the two enumeration orders of the sample two-file
directory compile to the same document. -/
theorem compile_deterministic_witness :
    compile_to_docx ["b.json", "a.json"] sampleContent =
      compile_to_docx ["a.json", "b.json"] sampleContent :=
  compile_deterministic _ _ _ (List.Perm.swap "a.json" "b.json" [])
